import Mathlib

/-!
Shallow embedding of the teacher-forcing log-odds scoring core of the
repository (shap/models/_teacher_forcing_logits.py and
shap/models/_pt_teacher_forcing_logits.py).

Modelling conventions:
* An input row (self.X) is either a python string or a numpy integer array;
  both kinds occurring in the code are covered by the inductive type Row.
* 2-D id tensors of shape (1, L) are modelled by their single batch row,
  a List Int.  A 3-D logit tensor of shape (1, P, V) is modelled by its
  single batch slice, a List (List a) of P rows of V scores.
* hasattr probing plus an is-None test on a config attribute is modelled by
  Option (Option Int): none = attribute absent, some none = attribute
  present but None, some (some v) = attribute present with value v.
* Python exceptions are modelled with Except PyError; the engine also
  returns the number of forward passes of the similarity model performed
  during the call (trace instrumentation for the zero-forward-pass claims).
* Device moves, eval(), no_grad(), dtype casts (.to(torch.int64),
  .astype(float64)) have no numeric effect and are modelled away; the
  element type of logit rows is a type parameter where the code never
  inspects the values.
-/

/-- An input row for one explanation instance: scalar text or a numpy
integer array (the two kinds update_cache_X distinguishes). -/
inductive Row where
  | str (s : String)
  | arr (a : List Int)
deriving DecidableEq, Repr

/-- The mutable per-row cache of TeacherForcingLogits (fields self.X,
self.target_sentence_ids, self.output_names), plus a counter of how many
times generation_function_for_target_sentence_ids has been invoked
(trace instrumentation, not a source field). -/
structure CacheState where
  X : Option Row
  target_sentence_ids : Option (List Int)
  output_names : Option (List String)
  providerCalls : Nat
deriving DecidableEq, Repr

/-- The initial cache of a freshly constructed object:
self.X = None, self.target_sentence_ids = None, self.output_names = None. -/
def initialCache : CacheState :=
  { X := none, target_sentence_ids := none, output_names := none,
    providerCalls := 0 }

/-- The cache-invalidation condition of update_cache_X:
(self.X is None) or (isinstance(self.X, np.ndarray) and (self.X != X).all())
or (isinstance(self.X, str) and (self.X != X)).
For two same-shape numpy arrays, (a != b).all() is true iff the elementwise
comparison differs at every position (vacuously true for empty arrays); the
arrays compared here have equal length, so the elementwise comparison is the
zip.  Rows never change kind within one explanation session; for a
kind-changing row the numpy comparison is all-unequal, modelled as true. -/
def cache_miss (cached : Option Row) (X : Row) : Bool :=
  match cached with
  | none => true
  | some (Row.arr a) =>
      match X with
      | Row.arr b => (a.zip b).all (fun p => p.1 != p.2)
      | Row.str _ => true
  | some (Row.str s) =>
      match X with
      | Row.str t => s != t
      | Row.arr _ => true

/-- update_cache_X: if the miss condition holds, store the incoming row,
regenerate the target sentence ids with
generation_function_for_target_sentence_ids (parameter gen) and recompute
output_names by decoding each target id with the similarity tokenizer
(parameter decode); otherwise leave the cache untouched. -/
def update_cache_X (gen : Row → List Int) (decode : Int → String)
    (st : CacheState) (X : Row) : CacheState :=
  if cache_miss st.X X then
    let target_sentence_ids := gen X
    { X := some X,
      target_sentence_ids := some target_sentence_ids,
      output_names := some (target_sentence_ids.map decode),
      providerCalls := st.providerCalls + 1 }
  else st

/-- Python exceptions raised by the embedded code. -/
inductive PyError where
  | valueError (msg : String)
  | attributeError
deriving DecidableEq, Repr

/-- The similarity model configuration attributes probed by
get_teacher_forced_logits.  Boolean flags are Option Bool (none = attribute
absent); token ids are Option (Option Int) (absent / present-but-None /
value).  decoder_bos_token_id stands for the nested chain
config.decoder.bos_token_id (none when any hasattr in the chain fails). -/
structure ModelConfig where
  is_encoder_decoder : Option Bool
  is_decoder : Option Bool
  decoder_start_token_id : Option (Option Int)
  bos_token_id : Option (Option Int)
  decoder_bos_token_id : Option (Option Int)
deriving DecidableEq, Repr

/-- get_teacher_forced_logits of PTTeacherForcingLogits.

Parameters model_enc_dec and model_dec_only are the two call shapes of the
similarity model's forward pass: model_enc_dec input_ids decoder_input_ids
labels, and model_dec_only input_ids.  The result pairs the returned logits
(batch slice, P rows of vocabulary scores) or the raised exception with the
number of forward passes performed.

Source flow: first the configuration check raising ValueError when both
is_encoder_decoder and is_decoder are declared false; then the read of
config.is_encoder_decoder (an AttributeError if absent); in encoder-decoder
mode the decoder start id is resolved through the elif chain
decoder_start_token_id / bos_token_id / decoder.bos_token_id, prepended to
the target ids (ones((batch,1)) * id concatenated on the last axis), and the
model is called with the prepended target both as decoder_input_ids and as
labels; in decoder-only mode an empty source is replaced by [bos_token_id]
(ValueError when no bos token is configured), source and target are
concatenated, and the output logits are sliced from position
len(source) - 1 onward. -/
def get_teacher_forced_logits (α : Type) (cfg : ModelConfig)
    (model_enc_dec : List Int → List Int → List Int → List (List α))
    (model_dec_only : List Int → List (List α))
    (source_sentence_ids target_sentence_ids : List Int) :
    Except PyError (List (List α)) × Nat :=
  if cfg.is_encoder_decoder = some false ∧ cfg.is_decoder = some false then
    (Except.error (PyError.valueError "Please assign either of is_encoder_decoder or is_decoder to True in model config for extracting target sentence ids"), 0)
  else
    match cfg.is_encoder_decoder with
    | none => (Except.error PyError.attributeError, 0)
    | some ied =>
      if ied then
        match (match cfg.decoder_start_token_id with
               | some (some v) => some v
               | _ =>
                 match cfg.bos_token_id with
                 | some (some v) => some v
                 | _ =>
                   match cfg.decoder_bos_token_id with
                   | some (some v) => some v
                   | _ => none) with
        | some s =>
            let target_sentence_ids := s :: target_sentence_ids
            (Except.ok (model_enc_dec source_sentence_ids target_sentence_ids
                          target_sentence_ids), 1)
        | none =>
            (Except.error (PyError.valueError "No decoder_start_token_id or bos_token_id defined in config for encoder-decoder generation"), 0)
      else
        match (if source_sentence_ids.length = 0 then
                 match cfg.bos_token_id with
                 | some (some b) => Except.ok [b]
                 | _ => Except.error (PyError.valueError "Context ids (source sentence ids) are null and no bos token defined in model config")
               else Except.ok source_sentence_ids) with
        | Except.error e => (Except.error e, 0)
        | Except.ok src =>
            let combined_sentence_ids := src ++ target_sentence_ids
            (Except.ok ((model_dec_only combined_sentence_ids).drop
                          (src.length - 1)), 1)

/-- get_logodds of PTTeacherForcingLogits: for every position i in
range(0, logits.shape[1] - 1), softmax the vocabulary scores at position i,
apply scipy.special.logit (p mapped to log (p / (1 - p))) elementwise, and
emit the entry at the cached target id for position i.  Token ids are
nonnegative, so the numpy integer index is modelled by Int.toNat. -/
noncomputable def get_logodds (logits : List (List ℝ))
    (target_sentence_ids : List Int) : List ℝ :=
  (List.range (logits.length - 1)).map (fun i =>
    let scores := logits.getD i []
    let probs := scores.map (fun x => Real.exp x / (scores.map Real.exp).sum)
    let logit_dist := probs.map (fun p => Real.log (p / (1 - p)))
    logit_dist.getD (target_sentence_ids.getD i 0).toNat 0)

/-- Modelled from the spec (reference definition for the numerical claim):
the softmax probability of index t of the score vector, converted to a
one-vs-all log-odds value log (p / (1 - p)). -/
noncomputable def softmax_logit_spec (scores : List ℝ) (t : Nat) : ℝ :=
  let p := Real.exp (scores.getD t 0) / (scores.map Real.exp).sum
  Real.log (p / (1 - p))

/-- One loop iteration of TeacherForcingLogits.call for the pair
(masked_x, x): update the cache on x, tokenize the masked input into source
ids, run the teacher-forced engine against the cached target ids, convert to
log odds.  The three subclass methods are parameters, as they are abstract
in the base class. -/
def TFL_step (gen : Row → List Int) (decode : Int → String)
    (get_source : Row → List Int)
    (get_logits : List Int → List Int → List (List ℝ))
    (get_lo : List (List ℝ) → List Int → List ℝ)
    (st : CacheState) (masked_x x : Row) : CacheState × List ℝ :=
  let st2 := update_cache_X gen decode st x
  let source_sentence_ids := get_source masked_x
  let tgt := st2.target_sentence_ids.getD []
  let logits := get_logits source_sentence_ids tgt
  (st2, get_lo logits tgt)

/-- The loop of TeacherForcingLogits.call over the zipped pair list,
threading the cache state and accumulating the output batch in input
order. -/
def TFL_call_aux (gen : Row → List Int) (decode : Int → String)
    (get_source : Row → List Int)
    (get_logits : List Int → List Int → List (List ℝ))
    (get_lo : List (List ℝ) → List Int → List ℝ)
    (st : CacheState) : List (Row × Row) → CacheState × List (List ℝ)
  | [] => (st, [])
  | p :: rest =>
      let step := TFL_step gen decode get_source get_logits get_lo st p.1 p.2
      let r := TFL_call_aux gen decode get_source get_logits get_lo
                 step.1 rest
      (r.1, step.2 :: r.2)

/-- TeacherForcingLogits.call: iterate over zip(masked_X, X) and collect
one log-odds vector per pair. -/
def TFL_call (gen : Row → List Int) (decode : Int → String)
    (get_source : Row → List Int)
    (get_logits : List Int → List Int → List (List ℝ))
    (get_lo : List (List ℝ) → List Int → List ℝ)
    (st : CacheState) (masked_X X : List Row) :
    CacheState × List (List ℝ) :=
  TFL_call_aux gen decode get_source get_logits get_lo st (masked_X.zip X)

/-- The kind of object passed as model or similarity_model, as probed by
safe_isinstance: a torch transformers.PreTrainedModel, a tensorflow
transformers.TFPreTrainedModel, or anything else (a plain function, None,
an unrecognized object). -/
inductive MKind where
  | pt
  | tf
  | other
deriving DecidableEq, Repr, Fintype

/-- safe_isinstance against the two recognized pretrained base classes. -/
def recognizedPretrained : MKind → Bool
  | MKind.pt => true
  | MKind.tf => true
  | MKind.other => false

/-- The construction-relevant state produced by a successful
TeacherForcingLogits.init. -/
structure InitState where
  model_agnostic : Bool
  similarity_model_kind : MKind
  assigned_subclass : MKind
deriving DecidableEq, Repr

/-- TeacherForcingLogits.init, reduced to its control flow over object
kinds.  gen_fn_supplied states whether a custom
generation_function_for_target_sentence_ids argument was passed.

When the explained model is a recognized pretrained model, the generation
function is resolved from the model itself (the inner else-raise is
unreachable there), model_agnostic is False and the model doubles as the
similarity model.  Otherwise the generation function must either be supplied
or be resolvable from a recognized similarity_model (else the first raise),
model_agnostic is True and the similarity model is the explicit argument.
Finally the subclass reassignment dispatches on the resolved similarity
model and raises when it is recognized as neither kind; the recursive
subclass init repeats the same assignments with identical arguments and
raises nothing new. -/
def TeacherForcingLogits_init (model_kind : MKind) (gen_fn_supplied : Bool)
    (similarity_model_kind : MKind) : Except String InitState :=
  match (if recognizedPretrained model_kind then
           Except.ok (false, model_kind)
         else
           if !gen_fn_supplied && !(recognizedPretrained similarity_model_kind) then
             Except.error "Cannot determine generation_function_for_target_sentence_ids to be assigned in TeacherForcingLogits. Please define similarity_model of instance transformers.PreTrainedModel or transformers.TFPreTrainedModel."
           else
             Except.ok (true, similarity_model_kind)) with
  | Except.error e => Except.error e
  | Except.ok p =>
      match p.2 with
      | MKind.pt =>
          Except.ok { model_agnostic := p.1, similarity_model_kind := p.2,
                      assigned_subclass := MKind.pt }
      | MKind.tf =>
          Except.ok { model_agnostic := p.1, similarity_model_kind := p.2,
                      assigned_subclass := MKind.tf }
      | MKind.other =>
          Except.error "Cannot determine subclass to be assigned in TeacherForcingLogits. Please define similarity model or model of instance transformers.PreTrainedModel or transformers.TFPreTrainedModel."

/-- A config attribute that is absent or present with value None: the
fall-through condition of the hasattr / is-not-None chains. -/
def absentOrNull (o : Option (Option Int)) : Prop :=
  o = none ∨ o = some none

/-! Concrete fixtures used by witnesses and counterexamples. -/

/-- A decoder-only configuration (is_encoder_decoder False, is_decoder True)
with bos_token_id 0, like a GPT-2 style config. -/
def cfgDecOnly : ModelConfig :=
  { is_encoder_decoder := some false, is_decoder := some true,
    decoder_start_token_id := none, bos_token_id := some (some 0),
    decoder_bos_token_id := none }

/-- A configuration declaring both is_encoder_decoder and is_decoder
False. -/
def cfgBothFalse : ModelConfig :=
  { is_encoder_decoder := some false, is_decoder := some false,
    decoder_start_token_id := none, bos_token_id := some (some 0),
    decoder_bos_token_id := none }

/-- An encoder-decoder configuration with decoder_start_token_id 3. -/
def cfgEncDecS : ModelConfig :=
  { is_encoder_decoder := some true, is_decoder := none,
    decoder_start_token_id := some (some 3), bos_token_id := none,
    decoder_bos_token_id := none }

/-- An encoder-decoder configuration with no resolvable start id. -/
def cfgEncDecNoStart : ModelConfig :=
  { is_encoder_decoder := some true, is_decoder := none,
    decoder_start_token_id := some none, bos_token_id := none,
    decoder_bos_token_id := some none }

/-- A concrete encoder-decoder similarity model: one vocabulary row per
decoder input position, echoing the decoder input id. -/
def modelED0 : List Int → List Int → List Int → List (List Int) :=
  fun _ decoder_input_ids _ => decoder_input_ids.map (fun x => [x])

/-- A concrete decoder-only similarity model: one vocabulary row per input
position, echoing the input id. -/
def modelDec0 : List Int → List (List Int) :=
  fun input_ids => input_ids.map (fun x => [x])

/-- A concrete target-sequence provider: shifts every element of an array
row by one. -/
def gen0 : Row → List Int :=
  fun r => match r with
  | Row.arr a => a.map (fun v => v + 1)
  | Row.str _ => [0]

/-- A concrete tokenizer decode. -/
def decode0 : Int → String := fun v => toString v

/-! Claim theorems. -/

/-- C1: the claim says any element-wise difference of an array row
regenerates the target sequence.  The code regenerates only when the numpy
comparison differs at EVERY position: with cached row [1, 2] and incoming
row [1, 3] (one element differs, so the rows differ by value), update_cache_X
returns the cache unchanged — the stale target ids stem from [1, 2] and the
provider is not invoked again. -/
theorem tfl_C1_code_behavior :
    (update_cache_X gen0 decode0 initialCache (Row.arr [1, 2])).providerCalls = 1
    ∧ (update_cache_X gen0 decode0 initialCache (Row.arr [1, 2])).target_sentence_ids
        = some [2, 3]
    ∧ Row.arr [1, 3] ≠ Row.arr [1, 2]
    ∧ update_cache_X gen0 decode0
        (update_cache_X gen0 decode0 initialCache (Row.arr [1, 2]))
        (Row.arr [1, 3])
      = update_cache_X gen0 decode0 initialCache (Row.arr [1, 2]) := by
  decide

/-- C3: with both architecture flags declared false, get_teacher_forced_logits
raises the ValueError naming is_encoder_decoder and is_decoder, for every
model and input, and performs zero forward passes. -/
theorem tfl_C3 (α : Type) (cfg : ModelConfig)
    (M : List Int → List Int → List Int → List (List α))
    (D : List Int → List (List α)) (src tgt : List Int)
    (h1 : cfg.is_encoder_decoder = some false)
    (h2 : cfg.is_decoder = some false) :
    get_teacher_forced_logits α cfg M D src tgt
      = (Except.error (PyError.valueError "Please assign either of is_encoder_decoder or is_decoder to True in model config for extracting target sentence ids"), 0) := by
  simp [get_teacher_forced_logits, h1, h2]

/-- Witness for C3 at a concrete configuration and input. -/
theorem tfl_C3_witness :
    get_teacher_forced_logits Int cfgBothFalse modelED0 modelDec0 [1] [2]
      = (Except.error (PyError.valueError "Please assign either of is_encoder_decoder or is_decoder to True in model config for extracting target sentence ids"), 0) :=
  tfl_C3 Int cfgBothFalse modelED0 modelDec0 [1] [2] rfl rfl

/-- C9 counterexample: the claim says construction succeeds whenever a
custom generation routine is supplied; but with an unrecognized model and an
unrecognized similarity model, construction raises the subclass-resolution
exception even though the custom routine was supplied. -/
theorem tfl_C9_counterexample :
    TeacherForcingLogits_init MKind.other true MKind.other
      = Except.error "Cannot determine subclass to be assigned in TeacherForcingLogits. Please define similarity model or model of instance transformers.PreTrainedModel or transformers.TFPreTrainedModel." := by
  rfl

/-- C9 amended: construction succeeds exactly when the model under
explanation or the supplied similarity model is recognized as a supported
pretrained type; supplying a custom generation routine does not affect
whether construction raises. -/
theorem tfl_C9_amended :
    ∀ (mk : MKind) (g : Bool) (sk : MKind),
      (TeacherForcingLogits_init mk g sk).isOk
        = (recognizedPretrained mk || recognizedPretrained sk) := by
  decide

/-- C2 counterexample: with a decoder-only config, source [1, 2] (S = 2) and
target [3, 4] (L = 2), the engine returns logits for THREE positions
(indices S-1 .. S+L-1 of the combined pass), not the L = 2 positions
(indices S-1 .. S+L-2) the claim states. -/
theorem tfl_C2_counterexample :
    (get_teacher_forced_logits Int cfgDecOnly modelED0 modelDec0 [1, 2] [3, 4]).1
      = Except.ok [[2], [3], [4]]
    ∧ ([[2], [3], [4]] : List (List Int)).length ≠ 2 :=
  ⟨rfl, by decide⟩

/-- C2 amended: in decoder-only mode with a non-empty source of length S and
target of length L, the engine performs one forward pass over the combined
sequence source ++ target (length S + L) and returns its output logits
sliced from position S - 1 onward, i.e. positions S-1 through S+L-1
inclusive — L + 1 positions, not L. -/
theorem tfl_C2_amended (α : Type) (cfg : ModelConfig)
    (M : List Int → List Int → List Int → List (List α))
    (D : List Int → List (List α)) (src tgt : List Int)
    (h1 : cfg.is_encoder_decoder = some false)
    (h2 : cfg.is_decoder = some true)
    (h3 : src ≠ []) :
    get_teacher_forced_logits α cfg M D src tgt
      = (Except.ok ((D (src ++ tgt)).drop (src.length - 1)), 1)
    ∧ ((∀ ids, (D ids).length = ids.length) →
        ((D (src ++ tgt)).drop (src.length - 1)).length = tgt.length + 1) := by
  constructor
  · simp [get_teacher_forced_logits, h1, h2, List.length_eq_zero, h3]
  · intro hD
    have hpos : 0 < src.length := List.length_pos.mpr h3
    rw [List.length_drop, hD, List.length_append]
    omega

/-- Witness for C2 amended at a concrete decoder-only configuration. -/
theorem tfl_C2_amended_witness :
    get_teacher_forced_logits Int cfgDecOnly modelED0 modelDec0 [1, 2] [3, 4]
      = (Except.ok ((modelDec0 ([1, 2] ++ [3, 4])).drop 1), 1)
    ∧ ((modelDec0 ([1, 2] ++ [3, 4])).drop 1).length = 2 + 1 := by
  have h := tfl_C2_amended Int cfgDecOnly modelED0 modelDec0 [1, 2] [3, 4]
    rfl rfl (by decide)
  exact ⟨h.1, h.2 (fun ids => by simp [modelDec0])⟩

/-- C4: in encoder-decoder mode the decoder start id is resolved in priority
order decoder_start_token_id, then top-level bos_token_id, then the nested
decoder bos_token_id, each accepted only when present and non-null; when all
three fall through, a missing-start-token ValueError is raised with zero
forward passes. -/
theorem tfl_C4 (α : Type) (cfg : ModelConfig)
    (M : List Int → List Int → List Int → List (List α))
    (D : List Int → List (List α)) (src tgt : List Int)
    (hED : cfg.is_encoder_decoder = some true) :
    (∀ a, cfg.decoder_start_token_id = some (some a) →
       get_teacher_forced_logits α cfg M D src tgt
         = (Except.ok (M src (a :: tgt) (a :: tgt)), 1))
    ∧ (∀ b, absentOrNull cfg.decoder_start_token_id →
         cfg.bos_token_id = some (some b) →
         get_teacher_forced_logits α cfg M D src tgt
           = (Except.ok (M src (b :: tgt) (b :: tgt)), 1))
    ∧ (∀ c, absentOrNull cfg.decoder_start_token_id →
         absentOrNull cfg.bos_token_id →
         cfg.decoder_bos_token_id = some (some c) →
         get_teacher_forced_logits α cfg M D src tgt
           = (Except.ok (M src (c :: tgt) (c :: tgt)), 1))
    ∧ (absentOrNull cfg.decoder_start_token_id →
         absentOrNull cfg.bos_token_id →
         absentOrNull cfg.decoder_bos_token_id →
         get_teacher_forced_logits α cfg M D src tgt
           = (Except.error (PyError.valueError "No decoder_start_token_id or bos_token_id defined in config for encoder-decoder generation"), 0)) := by
  refine ⟨?_, ?_, ?_, ?_⟩
  · intro a ha
    simp [get_teacher_forced_logits, hED, ha]
  · intro b hd hb
    rcases hd with hd | hd <;> simp [get_teacher_forced_logits, hED, hd, hb]
  · intro c hd hb hc
    rcases hd with hd | hd <;> rcases hb with hb | hb <;>
      simp [get_teacher_forced_logits, hED, hd, hb, hc]
  · intro hd hb hc
    rcases hd with hd | hd <;> rcases hb with hb | hb <;>
      rcases hc with hc | hc <;>
      simp [get_teacher_forced_logits, hED, hd, hb, hc]

/-- Witness for C4 at a configuration where all three start-token sources
fall through, hitting case (d). -/
theorem tfl_C4_witness :
    get_teacher_forced_logits Int cfgEncDecNoStart modelED0 modelDec0 [1] [2]
      = (Except.error (PyError.valueError "No decoder_start_token_id or bos_token_id defined in config for encoder-decoder generation"), 0) :=
  (tfl_C4 Int cfgEncDecNoStart modelED0 modelDec0 [1] [2] rfl).2.2.2
    (Or.inr rfl) (Or.inl rfl) (Or.inr rfl)

/-- C5: in encoder-decoder mode with resolved start id s and target
[t0, t1, t2], the similarity model is called with decoder input
[s, t0, t1, t2] (the start id prepended as the leading column), the same
prepended sequence is supplied as labels, one forward pass occurs, and the
returned logits have position-axis length 4 whenever the model emits one
vocabulary row per decoder input position. -/
theorem tfl_C5 (α : Type) (cfg : ModelConfig)
    (M : List Int → List Int → List Int → List (List α))
    (D : List Int → List (List α)) (src : List Int) (t0 t1 t2 s : Int)
    (hED : cfg.is_encoder_decoder = some true)
    (hres : cfg.decoder_start_token_id = some (some s)
      ∨ (absentOrNull cfg.decoder_start_token_id
          ∧ cfg.bos_token_id = some (some s))
      ∨ (absentOrNull cfg.decoder_start_token_id
          ∧ absentOrNull cfg.bos_token_id
          ∧ cfg.decoder_bos_token_id = some (some s))) :
    get_teacher_forced_logits α cfg M D src [t0, t1, t2]
      = (Except.ok (M src [s, t0, t1, t2] [s, t0, t1, t2]), 1)
    ∧ ((∀ a b c, (M a b c).length = b.length) →
        (M src [s, t0, t1, t2] [s, t0, t1, t2]).length = 4) := by
  constructor
  · rcases hres with h | ⟨hd, h⟩ | ⟨hd, hb, h⟩
    · simp [get_teacher_forced_logits, hED, h]
    · rcases hd with hd | hd <;> simp [get_teacher_forced_logits, hED, hd, h]
    · rcases hd with hd | hd <;> rcases hb with hb | hb <;>
        simp [get_teacher_forced_logits, hED, hd, hb, h]
  · intro hM
    rw [hM]
    rfl

/-- Witness for C5 at a concrete encoder-decoder configuration with
decoder_start_token_id 3 and target [4, 5, 6]. -/
theorem tfl_C5_witness :
    get_teacher_forced_logits Int cfgEncDecS modelED0 modelDec0 [9] [4, 5, 6]
      = (Except.ok (modelED0 [9] [3, 4, 5, 6] [3, 4, 5, 6]), 1)
    ∧ (modelED0 [9] [3, 4, 5, 6] [3, 4, 5, 6]).length = 4 := by
  have h := tfl_C5 Int cfgEncDecS modelED0 modelDec0 [9] 4 5 6 3 rfl (Or.inl rfl)
  exact ⟨h.1, h.2 (fun a b c => by simp [modelED0])⟩

/-- C6: in decoder-only mode with an empty source, a configured non-null
bos_token_id b is substituted as the single-token source before
concatenation (the model runs on b :: target); when bos_token_id is absent
or null, a ValueError is raised instead of silently defaulting, with zero
forward passes. -/
theorem tfl_C6 (α : Type) (cfg : ModelConfig)
    (M : List Int → List Int → List Int → List (List α))
    (D : List Int → List (List α)) (tgt : List Int)
    (h1 : cfg.is_encoder_decoder = some false)
    (h2 : cfg.is_decoder = some true) :
    (∀ b, cfg.bos_token_id = some (some b) →
       get_teacher_forced_logits α cfg M D [] tgt
         = (Except.ok (D (b :: tgt)), 1))
    ∧ (absentOrNull cfg.bos_token_id →
       get_teacher_forced_logits α cfg M D [] tgt
         = (Except.error (PyError.valueError "Context ids (source sentence ids) are null and no bos token defined in model config"), 0)) := by
  constructor
  · intro b hb
    simp [get_teacher_forced_logits, h1, h2, hb]
  · intro hb
    rcases hb with hb | hb <;> simp [get_teacher_forced_logits, h1, h2, hb]

/-- Witness for C6: empty source with bos_token_id 0 substitutes source [0]
before concatenation with target [7]. -/
theorem tfl_C6_witness :
    get_teacher_forced_logits Int cfgDecOnly modelED0 modelDec0 [] [7]
      = (Except.ok (modelDec0 (0 :: [7])), 1) :=
  (tfl_C6 Int cfgDecOnly modelED0 modelDec0 [7] rfl rfl).1 0 rfl

/-- The loop of the orchestrator emits exactly one log-odds vector per
zipped pair. -/
lemma TFL_call_aux_length (gen : Row → List Int) (decode : Int → String)
    (get_source : Row → List Int)
    (get_logits : List Int → List Int → List (List ℝ))
    (get_lo : List (List ℝ) → List Int → List ℝ) :
    ∀ (pairs : List (Row × Row)) (st : CacheState),
      (TFL_call_aux gen decode get_source get_logits get_lo st pairs).2.length
        = pairs.length
  | [], _ => rfl
  | _ :: rest, st => by
      simp [TFL_call_aux,
        TFL_call_aux_length gen decode get_source get_logits get_lo rest]

/-- Zipping truncates both lists to the length of the other. -/
lemma zip_take_take {α β : Type} :
    ∀ (l1 : List α) (l2 : List β),
      l1.zip l2 = (l1.take l2.length).zip (l2.take l1.length)
  | [], _ => by simp
  | _ :: _, [] => by simp
  | a :: l1, b :: l2 => by
      simpa using zip_take_take l1 l2

/-- C10: the orchestrator returns exactly min(len masked_X, len X) log-odds
vectors, in input order, and the extra trailing elements of the longer input
are silently ignored: the call result is unchanged when each input is
truncated to the other's length.  No error is raised on unequal lengths. -/
theorem tfl_C10 (gen : Row → List Int) (decode : Int → String)
    (get_source : Row → List Int)
    (get_logits : List Int → List Int → List (List ℝ))
    (get_lo : List (List ℝ) → List Int → List ℝ)
    (st : CacheState) (masked_X X : List Row) :
    (TFL_call gen decode get_source get_logits get_lo st masked_X X).2.length
      = min masked_X.length X.length
    ∧ TFL_call gen decode get_source get_logits get_lo st masked_X X
      = TFL_call gen decode get_source get_logits get_lo st
          (masked_X.take X.length) (X.take masked_X.length) := by
  constructor
  · rw [TFL_call, TFL_call_aux_length, List.length_zip]
  · rw [TFL_call, TFL_call, ← zip_take_take]

/-- C7 counterexample: a full orchestrator run for one masked/original pair
whose target sequence has length L = 2 (decoder-only similarity model,
source of length 1) returns a log-odds vector of length 2, not L - 1 = 1. -/
theorem tfl_C7_counterexample :
    ((TFL_call (fun _ => [5, 7]) decode0 (fun _ => [9])
        (fun src tgt =>
          ((get_teacher_forced_logits ℝ cfgDecOnly (fun _ _ _ => [])
              (fun ids => ids.map (fun _ => [(0 : ℝ)])) src tgt).1).toOption.getD [])
        get_logodds initialCache [Row.str "m"] [Row.str "x"]).2.map
          List.length) = [2]
    ∧ (2 : Nat) ≠ 2 - 1 := by
  constructor
  · rfl
  · decide

/-- C7 amended: get_logodds applied to a logit tensor with P positions
returns exactly P - 1 scalars (P = 1 yields the empty vector); consequently
the log-odds vector for one pair in decoder-only mode has length L (the
engine returns L + 1 positions), not L - 1. -/
theorem tfl_C7_amended :
    (∀ (logits : List (List ℝ)) (tgt : List Int),
       (get_logodds logits tgt).length = logits.length - 1)
    ∧ (∀ (cfg : ModelConfig)
         (M : List Int → List Int → List Int → List (List ℝ))
         (D : List Int → List (List ℝ)) (src tgt : List Int),
         cfg.is_encoder_decoder = some false → cfg.is_decoder = some true →
         src ≠ [] → (∀ ids, (D ids).length = ids.length) →
         ∀ (l : List (List ℝ)) (n : Nat),
           get_teacher_forced_logits ℝ cfg M D src tgt = (Except.ok l, n) →
           (get_logodds l tgt).length = tgt.length) := by
  have hlen : ∀ (logits : List (List ℝ)) (tgt : List Int),
      (get_logodds logits tgt).length = logits.length - 1 := by
    intro logits tgt
    simp [get_logodds]
  refine ⟨hlen, ?_⟩
  intro cfg M D src tgt h1 h2 h3 hD l n heq
  have hgtf : get_teacher_forced_logits ℝ cfg M D src tgt
      = (Except.ok ((D (src ++ tgt)).drop (src.length - 1)), 1) := by
    simp [get_teacher_forced_logits, h1, h2, List.length_eq_zero, h3]
  rw [hgtf] at heq
  have hl : l = (D (src ++ tgt)).drop (src.length - 1) := by
    have hfst := congrArg Prod.fst heq
    simpa using hfst.symm
  subst hl
  rw [hlen, List.length_drop, hD, List.length_append]
  have hpos : 0 < src.length := List.length_pos.mpr h3
  omega

/-- Witness for C7 amended: decoder-only engine output for source [9] and
target [5, 7] converts to a log-odds vector of length 2. -/
theorem tfl_C7_amended_witness :
    (get_logodds
        (((fun (ids : List Int) => ids.map (fun _ => [(0 : ℝ)])) ([9] ++ [5, 7])).drop
          (([9] : List Int).length - 1)) [5, 7]).length = 2 :=
  tfl_C7_amended.2 cfgDecOnly (fun _ _ _ => [])
    (fun (ids : List Int) => ids.map (fun _ => [(0 : ℝ)])) [9] [5, 7]
    rfl rfl (by decide) (fun (ids : List Int) => by simp) _ 1 rfl

/-- C8: each emitted scalar of the converter equals the one-vs-all log-odds
of the softmax probability of the cached target token id at that position,
and in particular matches the directly computed softmax-then-logit reference
within tolerance 1e-6 (the two agree exactly over the reals). -/
theorem tfl_C8 (logits : List (List ℝ)) (tgt : List Int) (i : Nat)
    (hi : i < logits.length - 1)
    (ht : (tgt.getD i 0).toNat < (logits.getD i []).length) :
    (get_logodds logits tgt).getD i 0
      = softmax_logit_spec (logits.getD i []) (tgt.getD i 0).toNat
    ∧ |(get_logodds logits tgt).getD i 0
        - softmax_logit_spec (logits.getD i []) (tgt.getD i 0).toNat| ≤ 1e-6 := by
  have key : (get_logodds logits tgt).getD i 0
      = softmax_logit_spec (logits.getD i []) (tgt.getD i 0).toNat := by
    have h1 : i < ((List.range (logits.length - 1)).map (fun i =>
        let scores := logits.getD i []
        let probs := scores.map (fun x => Real.exp x / (scores.map Real.exp).sum)
        let logit_dist := probs.map (fun p => Real.log (p / (1 - p)))
        logit_dist.getD (tgt.getD i 0).toNat 0)).length := by
      simpa using hi
    rw [get_logodds, List.getD_eq_getElem _ _ h1, List.getElem_map,
      List.getElem_range]
    dsimp only
    have ht2 : (tgt.getD i 0).toNat <
        (((logits.getD i []).map (fun x =>
            Real.exp x / ((logits.getD i []).map Real.exp).sum)).map
          (fun p => Real.log (p / (1 - p)))).length := by
      simpa using ht
    have ht3 : (tgt.getD i 0).toNat <
        ((logits.getD i []).map (fun x =>
            Real.exp x / ((logits.getD i []).map Real.exp).sum)).length := by
      simpa using ht
    rw [List.getD_eq_getElem _ _ ht2, List.getElem_map, List.getElem_map]
    rw [softmax_logit_spec]
    rw [List.getD_eq_getElem _ _ ht]
  refine ⟨key, ?_⟩
  rw [key, sub_self, abs_zero]
  norm_num

/-- Witness for C8: the single scored position of the logit tensor whose
first row is [2.0, 0.0, -2.0], with target token id 0, equals the directly
computed softmax-then-logit reference, within tolerance 1e-6. -/
theorem tfl_C8_witness :
    (get_logodds [[(2 : ℝ), 0, -2], [0, 0, 0]] [0, 0]).getD 0 0
      = softmax_logit_spec [(2 : ℝ), 0, -2] 0
    ∧ |(get_logodds [[(2 : ℝ), 0, -2], [0, 0, 0]] [0, 0]).getD 0 0
        - softmax_logit_spec [(2 : ℝ), 0, -2] 0| ≤ 1e-6 := by
  have h := tfl_C8 [[(2 : ℝ), 0, -2], [0, 0, 0]] [0, 0] 0 (by norm_num)
    (by norm_num)
  simpa using h
